import Mathlib

/-!
Shallow embedding of the cat-safe plant analysis service
(NestJS + zod + @openai/agents) and verification of its
specification claims.

JSON payloads are modelled by an inductive `Json` type; JavaScript
numbers are modelled as rationals (the code performs only order
comparisons and equality on them, never float-specific arithmetic).
The two zod schemas (`HarmfulSchema`, `PoisonousSchema`) become
decidable validators `Json → Bool` following zod semantics: a
`z.object` accepts any JSON object that carries every declared key
with a valid value, ignoring (stripping) unknown keys; `z.nativeEnum`
accepts any value of the enum; `z.array(s)` accepts arrays all of
whose elements satisfy `s`.
-/

namespace CatSafe

/-- JSON values.  Numbers are rationals: the validators only compare
them against integer bounds, so this is faithful for every payload
the schemas inspect. -/
inductive Json where
  | null
  | bool (b : Bool)
  | num (q : ℚ)
  | str (s : String)
  | arr (elems : List Json)
  | obj (fields : List (String × Json))

/-- Field lookup in a JSON object, first occurrence wins (JavaScript
objects cannot carry duplicate keys). -/
def lookupField : List (String × Json) → String → Option Json
  | [], _ => none
  | (k, v) :: rest, key => if k = key then some v else lookupField rest key

/-- zod `z.string()`. -/
def Json.isString : Json → Bool
  | .str _ => true
  | _ => false

/-- zod `z.boolean()`. -/
def Json.isBoolean : Json → Bool
  | .bool _ => true
  | _ => false

/-- zod `z.number()`. -/
def Json.isNumber : Json → Bool
  | .num _ => true
  | _ => false

/-- zod object-field check: the key must be present and its value
must satisfy the field schema (no declared field is optional). -/
def checkField (fields : List (String × Json)) (key : String) (p : Json → Bool) : Bool :=
  match lookupField fields key with
  | some v => p v
  | none => false

/-- zod `z.array(z.string())`. -/
def stringArray : Json → Bool
  | .arr xs => xs.all Json.isString
  | _ => false

/-- The `AgentType` enum of `agent.enum.ts`:
`enum AgentType { HARMFUL = 'HARMFUL', POISONOUS = 'POISONOUS' }`.
zod's `z.nativeEnum(AgentType)` accepts either of the two string
values, in both schemas. -/
def isAgentType : Json → Bool
  | .str s => s == "HARMFUL" || s == "POISONOUS"
  | _ => false

/-- zod `z.number().min(0).max(10)` — the `toxicityLevel` field of a
chemical-list entry in `harmful.schema.ts`. -/
def toxicityLevelInRange : Json → Bool
  | .num q => decide (0 ≤ q) && decide (q ≤ 10)
  | _ => false

/-- Element schema of `chemicalList` in `harmful.schema.ts`. -/
def validChemical : Json → Bool
  | .obj f =>
      checkField f "name" Json.isString &&
      checkField f "description" Json.isString &&
      checkField f "toxicity" Json.isBoolean &&
      checkField f "toxicityLevel" toxicityLevelInRange &&
      checkField f "toxicityDescription" Json.isString &&
      checkField f "toxicitySymptoms" stringArray &&
      checkField f "toxicityTreatment" Json.isString
  | _ => false

/-- zod `z.array(<chemical entry>)`. -/
def chemicalArray : Json → Bool
  | .arr xs => xs.all validChemical
  | _ => false

/-- The `HarmfulSchema` validator of `harmful.schema.ts`. -/
def HarmfulSchema.validate : Json → Bool
  | .obj f =>
      checkField f "isHarmful" Json.isBoolean &&
      checkField f "plantName" Json.isString &&
      checkField f "plantScientificName" Json.isString &&
      checkField f "chemicalComposition" Json.isString &&
      checkField f "chemicalList" chemicalArray &&
      checkField f "toxicityThreshold" Json.isString &&
      checkField f "agentType" isAgentType
  | _ => false

/-- Element schema of `toxicCompounds` in `poisonous.schema.ts`. -/
def validToxicCompound : Json → Bool
  | .obj f =>
      checkField f "name" Json.isString &&
      checkField f "chemicalClassification" Json.isString &&
      checkField f "mechanismOfAction" Json.isString &&
      checkField f "targetOrgans" stringArray &&
      checkField f "toxicityDescription" Json.isString
  | _ => false

/-- zod `z.array(<toxic compound>)`. -/
def toxicCompoundArray : Json → Bool
  | .arr xs => xs.all validToxicCompound
  | _ => false

/-- The `clinicalSigns` group schema in `poisonous.schema.ts`. -/
def validClinicalSigns : Json → Bool
  | .obj f =>
      checkField f "earlySymptoms" stringArray &&
      checkField f "progressiveSymptoms" stringArray &&
      checkField f "onsetTimeline" Json.isString
  | _ => false

/-- The `emergencyResponse` group schema in `poisonous.schema.ts`. -/
def validEmergencyResponse : Json → Bool
  | .obj f =>
      checkField f "firstAidSteps" stringArray &&
      checkField f "whenToSeekHelp" Json.isString &&
      checkField f "vetInformation" stringArray
  | _ => false

/-- Element schema of `nearestVets` in `poisonous.schema.ts`.  Note
that the array carries no `.max(10)` (or any length) refinement in
the source. -/
def validVet : Json → Bool
  | .obj f =>
      checkField f "name" Json.isString &&
      checkField f "address" Json.isString &&
      checkField f "phoneNumber" Json.isString &&
      checkField f "distance" Json.isString &&
      checkField f "isEmergency24h" Json.isBoolean
  | _ => false

/-- zod `z.array(<vet entry>)` — unbounded in the source. -/
def vetArray : Json → Bool
  | .arr xs => xs.all validVet
  | _ => false

/-- The `locationCoordinates` nested object in `poisonous.schema.ts`. -/
def validCoordinates : Json → Bool
  | .obj f =>
      checkField f "latitude" Json.isNumber &&
      checkField f "longitude" Json.isNumber
  | _ => false

/-- The `PoisonousSchema` validator of `poisonous.schema.ts`.  The
`toxicityLevel` field is a bare `z.string()` in the source (the
intended labels appear only in a comment), and `nearestVets` is an
unbounded array. -/
def PoisonousSchema.validate : Json → Bool
  | .obj f =>
      checkField f "isPoisonous" Json.isBoolean &&
      checkField f "plantName" Json.isString &&
      checkField f "plantScientificName" Json.isString &&
      checkField f "plantDescription" Json.isString &&
      checkField f "toxicityLevel" Json.isString &&
      checkField f "toxicPlantParts" stringArray &&
      checkField f "safePlantParts" stringArray &&
      checkField f "toxicCompounds" toxicCompoundArray &&
      checkField f "clinicalSigns" validClinicalSigns &&
      checkField f "emergencyResponse" validEmergencyResponse &&
      checkField f "nearestVets" vetArray &&
      checkField f "locationCoordinates" validCoordinates &&
      checkField f "toxicityThreshold" Json.isString &&
      checkField f "agentType" isAgentType
  | _ => false

/-! Concrete payloads used as test vectors for the validators. -/

/-- Fields of a valid chemical-list entry, parameterised by its
`toxicityLevel` value. -/
def chemicalEntryFields (lvl : ℚ) : List (String × Json) :=
  [ ("name", .str "insoluble calcium oxalates"),
    ("description", .str "needle-shaped crystals"),
    ("toxicity", .bool true),
    ("toxicityLevel", .num lvl),
    ("toxicityDescription", .str "oral irritation"),
    ("toxicitySymptoms", .arr [.str "drooling", .str "vomiting"]),
    ("toxicityTreatment", .str "rinse mouth and contact a vet") ]

/-- A chemical-list entry with the given `toxicityLevel`. -/
def chemicalEntry (lvl : ℚ) : Json := .obj (chemicalEntryFields lvl)

/-- Fields of a Harmful-shaped payload whose single chemical entry
carries the given `toxicityLevel`; every other field is valid. -/
def harmfulFields (lvl : ℚ) : List (String × Json) :=
  [ ("isHarmful", .bool false),
    ("plantName", .str "Spider Plant"),
    ("plantScientificName", .str "Chlorophytum comosum"),
    ("chemicalComposition", .str "mildly psychoactive compounds"),
    ("chemicalList", .arr [chemicalEntry lvl]),
    ("toxicityThreshold", .str "large quantities"),
    ("agentType", .str "HARMFUL") ]

/-- A Harmful-shaped payload with one chemical entry of the given
`toxicityLevel`. -/
def harmfulExample (lvl : ℚ) : Json := .obj (harmfulFields lvl)

/-- A valid nearby-veterinary-clinic entry. -/
def vetEntry : Json :=
  .obj [ ("name", .str "Central Park Veterinary Clinic"),
         ("address", .str "1 Main Street"),
         ("phoneNumber", .str "555-0100"),
         ("distance", .str "0.4 miles"),
         ("isEmergency24h", .bool true) ]

/-- A valid toxic-compound entry. -/
def toxicCompoundEntry : Json :=
  .obj [ ("name", .str "lycorine"),
         ("chemicalClassification", .str "alkaloids"),
         ("mechanismOfAction", .str "inhibits protein synthesis"),
         ("targetOrgans", .arr [.str "kidneys", .str "liver"]),
         ("toxicityDescription", .str "severe nephrotoxicity in cats") ]

/-- Fields of a Poisonous-shaped payload, parameterised by the
`toxicityLevel` value and the `nearestVets` value; every other field
is valid. -/
def poisonousFields (tox : Json) (vets : Json) : List (String × Json) :=
  [ ("isPoisonous", .bool true),
    ("plantName", .str "Lily"),
    ("plantScientificName", .str "Lilium"),
    ("plantDescription", .str "a flowering bulb plant"),
    ("toxicityLevel", tox),
    ("toxicPlantParts", .arr [.str "leaves", .str "flowers", .str "pollen"]),
    ("safePlantParts", .arr []),
    ("toxicCompounds", .arr [toxicCompoundEntry]),
    ("clinicalSigns",
      .obj [ ("earlySymptoms", .arr [.str "vomiting", .str "drooling"]),
             ("progressiveSymptoms", .arr [.str "kidney failure"]),
             ("onsetTimeline", .str "2 to 6 hours") ]),
    ("emergencyResponse",
      .obj [ ("firstAidSteps", .arr [.str "remove plant material"]),
             ("whenToSeekHelp", .str "immediately"),
             ("vetInformation", .arr [.str "bring a sample of the plant"]) ]),
    ("nearestVets", vets),
    ("locationCoordinates",
      .obj [ ("latitude", .num 40), ("longitude", .num (-73)) ]),
    ("toxicityThreshold", .str "any ingestion"),
    ("agentType", .str "POISONOUS") ]

/-- A Poisonous-shaped payload with the given `toxicityLevel` and
`nearestVets` values. -/
def poisonousExample (tox : Json) (vets : Json) : Json :=
  .obj (poisonousFields tox vets)

/-- A payload carrying every field of the Harmful shape followed by
every field of the Poisonous shape (the shared keys `plantName`,
`plantScientificName`, `toxicityThreshold` and `agentType` are
resolved to the Harmful copy). -/
def mergedPayload : Json :=
  .obj (harmfulFields 5 ++ poisonousFields (.str "Lethal") (.arr [vetEntry]))

/-!
The orchestration service (`agent.service.ts`), the thin service
layer (`cat-safe.service.ts`) and the HTTP controller
(`cat-safe.controller.ts`).

The external `run` function of `@openai/agents` is an opaque
collaborator: it is a parameter of the embedded functions, of type
`List AgentInputItem → RunResult α`.  JavaScript values reaching
template-literal interpolation (the `longitude`/`latitude` body
fields, which the code never parses, range-checks or computes with)
are modelled by `JsValue`, a number being represented by its decimal
rendering — the only operation the code performs on them is
stringification.
-/

/-- A JavaScript value as it appears in the request body and in
template-literal interpolation.  `num s` is a JS number carrying its
decimal rendering `s`; `undef` is JavaScript `undefined` (a missing
body field). -/
inductive JsValue where
  | undef
  | str (s : String)
  | num (s : String)

/-- Template-literal stringification of a JavaScript value
(`undefined` renders as the text "undefined"). -/
def JsValue.render : JsValue → String
  | .undef => "undefined"
  | .str s => s
  | .num s => s

/-- One part of a multimodal message: `input_text` or `input_image`
of the agents SDK. -/
inductive ContentPart where
  | inputText (text : String)
  | inputImage (image : String)

/-- An `AgentInputItem` of the agents SDK: a role together with a
list of content parts. -/
structure AgentInputItem where
  role : String
  content : List ContentPart

/-- The result object returned by the SDK's `run`; the service reads
its `finalOutput` field. -/
structure RunResult (α : Type) where
  finalOutput : α

/-- The state of a constructed `AgentService`: the credential
installed once via `setDefaultOpenAIKey` in the constructor. -/
structure AgentService where
  apiKey : String

/-- The `AgentService` constructor of `agent.service.ts`:
`configService.get<string>('OPENAI_API_KEY')` yields the configured
string or `undefined` (here `Option String`), and
`if (!openaiApiKey) throw ...` throws exactly on the JavaScript-falsy
strings, i.e. on `undefined` and on the empty string. -/
def AgentService.construct (openaiApiKey : Option String) : Except String AgentService :=
  match openaiApiKey with
  | none => .error "OPENAI_API_KEY is required but not provided"
  | some k =>
      if k = "" then .error "OPENAI_API_KEY is required but not provided"
      else .ok { apiKey := k }

/-- `AgentService.checkThePlantIsHarmful` of `agent.service.ts`:
builds the fixed-prefix data URL, one user-role multimodal message
with a text part and an image part, calls `run` on the singleton
message list and returns `result.finalOutput`. -/
def AgentService.checkThePlantIsHarmful {α : Type}
    (run : List AgentInputItem → RunResult α)
    (base64Image : String) (longitude latitude : JsValue) : α :=
  let imageUrl := "data:image/jpeg;base64," ++ base64Image
  let agentInputItem : AgentInputItem :=
    { role := "user"
      content :=
        [ ContentPart.inputText
            ("The plant is located at " ++ longitude.render ++ ", " ++ latitude.render),
          ContentPart.inputImage imageUrl ] }
  (run [agentInputItem]).finalOutput

/-- The uploaded file as the controller sees it
(`Express.Multer.File`): the fields the pipeline and the validators
read. -/
structure MulterFile where
  mimetype : String
  size : Nat
  buffer : List Nat

/-- Modelled from the spec: Node's `Buffer.toString('base64')`
(library code, not in the repository) — standard base64 of the raw
bytes.  The claims only depend on it being a fixed total function of
the buffer. -/
def base64Chunk (n : Nat) : Char :=
  "ABCDEFGHIJKLMNOPQRSTUVWXYZabcdefghijklmnopqrstuvwxyz0123456789+/".toList.getD n 'A'

/-- Modelled from the spec: base64 encoding of a byte list, used for
`image.buffer.toString('base64')` in `cat-safe.service.ts`. -/
def base64Encode : List Nat → String
  | [] => ""
  | [b1] =>
      String.mk [base64Chunk (b1 / 4), base64Chunk (b1 % 4 * 16)] ++ "=="
  | [b1, b2] =>
      String.mk [base64Chunk (b1 / 4), base64Chunk (b1 % 4 * 16 + b2 / 16),
                 base64Chunk (b2 % 16 * 4)] ++ "="
  | b1 :: b2 :: b3 :: rest =>
      String.mk [base64Chunk (b1 / 4), base64Chunk (b1 % 4 * 16 + b2 / 16),
                 base64Chunk (b2 % 16 * 4 + b3 / 64), base64Chunk (b3 % 64)]
        ++ base64Encode rest

/-- `CatSafeService.checkThePlantIsHarmful` of `cat-safe.service.ts`:
base64-encodes the uploaded buffer, delegates to the agent service
and returns its result unchanged. -/
def CatSafeService.checkThePlantIsHarmful {α : Type}
    (run : List AgentInputItem → RunResult α)
    (image : MulterFile) (longitude latitude : JsValue) : α :=
  let base64Image := base64Encode image.buffer
  AgentService.checkThePlantIsHarmful run base64Image longitude latitude

/-- Suffix test on strings, character-exact (used to embed the
anchored regex alternatives of the upload pipe). -/
def stringEndsWith (s suffix : String) : Bool :=
  decide (s.toList.drop (s.toList.length - suffix.toList.length) = suffix.toList)

/-- Modelled from the spec: the NestJS `FileTypeValidator` behind
`addFileTypeValidator` (library code, not in the repository) tests
the file's type string against the repository's pattern
`/(jpg|jpeg|png)$/`, i.e. accepts exactly the type strings ending in
one of the three alternatives. -/
def fileTypeOk (mimetype : String) : Bool :=
  stringEndsWith mimetype "jpg" || stringEndsWith mimetype "jpeg" ||
    stringEndsWith mimetype "png"

/-- Modelled from the spec: the NestJS `MaxFileSizeValidator` behind
`addMaxSizeValidator` with the repository's bound `5 * 1024 * 1024`
("file size must not exceed 5 MiB"). -/
def fileSizeOk (size : Nat) : Bool :=
  size ≤ 5 * 1024 * 1024

/-- The combined upload validation of the `ParseFilePipeBuilder` pipe
in `cat-safe.controller.ts`: both validators must pass. -/
def fileValid (f : MulterFile) : Bool :=
  fileTypeOk f.mimetype && fileSizeOk f.size

/-- The HTTP outcome of the endpoint: a 200 body, or the pipe's
configured 422 rejection. -/
inductive HttpResponse (α : Type) where
  | ok (body : α)
  | unprocessableEntity

/-- The request body of `POST /cat-safe/check-harmful` as the
controller reads it: `body.longitude` and `body.latitude`, never
parsed or checked, so each is an arbitrary `JsValue` (possibly
`undef`). -/
structure RequestBody where
  longitude : JsValue
  latitude : JsValue

/-- `CatSafeController.checkHarmful` of `cat-safe.controller.ts`:
the `ParseFilePipeBuilder` pipe rejects with 422 before the service
is reached; otherwise the controller returns the service result
verbatim. -/
def CatSafeController.checkHarmful {α : Type}
    (run : List AgentInputItem → RunResult α)
    (image : MulterFile) (body : RequestBody) : HttpResponse α :=
  if fileValid image then
    .ok (CatSafeService.checkThePlantIsHarmful run image body.longitude body.latitude)
  else
    .unprocessableEntity

/-!
Claim theorems.
-/

/-- C1 (counterexample): the discriminator-exclusivity claim is false
on the code: the concrete payload `mergedPayload`, which carries the
fields of both shapes and the tag "HARMFUL", validates against the
Harmful schema and the Poisonous schema simultaneously (zod strips
unknown keys and `z.nativeEnum(AgentType)` accepts both tag values in
both schemas). -/
theorem both_schemas_accept_mergedPayload :
    HarmfulSchema.validate mergedPayload = true
    ∧ PoisonousSchema.validate mergedPayload = true := by
  constructor
  · decide
  · decide

/-- C1 (amended): a payload can validate against both schemas, so the
tag does not determine the shape; what distinguishes the schemas is
their required fields: a JSON object without an `isPoisonous` key
never validates against the Poisonous schema, and one without an
`isHarmful` key never validates against the Harmful schema. -/
theorem schema_selectivity_by_required_fields (fields : List (String × Json)) :
    (lookupField fields "isPoisonous" = none →
      PoisonousSchema.validate (.obj fields) = false)
    ∧ (lookupField fields "isHarmful" = none →
      HarmfulSchema.validate (.obj fields) = false) := by
  constructor
  · intro h
    simp [PoisonousSchema.validate, checkField, h]
  · intro h
    simp [HarmfulSchema.validate, checkField, h]

/-- C1 (witness): the empty object validates against neither schema. -/
theorem schema_selectivity_by_required_fields_witness :
    PoisonousSchema.validate (.obj []) = false
    ∧ HarmfulSchema.validate (.obj []) = false :=
  ⟨(schema_selectivity_by_required_fields []).1 rfl,
   (schema_selectivity_by_required_fields []).2 rfl⟩

/-- C2 (counterexample): a Poisonous-shaped payload whose
`nearestVets` list has 11 entries is accepted by the Poisonous schema
validator, contradicting the claimed at-most-10 bound (the source
array carries no `.max(10)`). -/
theorem poisonous_accepts_eleven_vets :
    PoisonousSchema.validate
      (poisonousExample (.str "Highly toxic") (.arr (List.replicate 11 vetEntry))) = true := by
  decide

/-- C2 (amended): the Poisonous schema validator imposes no bound at
all on the length of `nearestVets`: a list of valid clinic entries of
any length `n` is accepted. -/
theorem poisonous_vets_unbounded (n : ℕ) :
    PoisonousSchema.validate
      (poisonousExample (.str "Highly toxic") (.arr (List.replicate n vetEntry))) = true := by
  have hvets : (List.replicate n vetEntry).all validVet = true := by
    induction n with
    | zero => decide
    | succ m ih => rw [List.replicate_succ, List.all_cons, ih]; decide
  simp only [poisonousExample, PoisonousSchema.validate, Bool.and_eq_true, and_assoc]
  refine ⟨rfl, rfl, rfl, rfl, rfl, rfl, rfl, rfl, rfl, rfl, ?_, rfl, rfl, rfl⟩
  show vetArray (.arr (List.replicate n vetEntry)) = true
  exact hvets

/-- C3: the Harmful schema validator rejects every payload in which
some chemical-list entry has a `toxicityLevel` outside [0, 10]
(first conjunct, fully general), and on the example payload it
accepts the boundary values 0 and 10 and rejects -1 and 11. -/
theorem harmful_toxicityLevel_range :
    (∀ (fields : List (String × Json)) (entries : List Json)
        (efields : List (String × Json)) (q : ℚ),
        lookupField fields "chemicalList" = some (.arr entries) →
        Json.obj efields ∈ entries →
        lookupField efields "toxicityLevel" = some (.num q) →
        q < 0 ∨ 10 < q →
        HarmfulSchema.validate (.obj fields) = false)
    ∧ HarmfulSchema.validate (harmfulExample 0) = true
    ∧ HarmfulSchema.validate (harmfulExample 10) = true
    ∧ HarmfulSchema.validate (harmfulExample (-1)) = false
    ∧ HarmfulSchema.validate (harmfulExample 11) = false := by
  refine ⟨?_, by decide, by decide, by decide, by decide⟩
  intro fields entries efields q hcl hmem htl hq
  have hlvl : toxicityLevelInRange (.num q) = false := by
    simp only [toxicityLevelInRange]
    rcases hq with h | h
    · rw [decide_eq_false (not_le.mpr h), Bool.false_and]
    · rw [decide_eq_false (not_le.mpr h), Bool.and_false]
  have hentry : validChemical (.obj efields) = false := by
    simp only [validChemical, checkField, htl]
    rw [hlvl]
    simp
  have hall : entries.all validChemical = false := by
    cases hall : entries.all validChemical with
    | false => rfl
    | true =>
      have hmemtrue := (List.all_eq_true.mp hall) _ hmem
      rw [hentry] at hmemtrue
      exact absurd hmemtrue Bool.false_ne_true
  have hc5 : checkField fields "chemicalList" chemicalArray = false := by
    simp only [checkField, hcl, chemicalArray]
    exact hall
  simp only [HarmfulSchema.validate]
  rw [hc5]
  simp

/-- C3 (witness): the general rejection conjunct applied to the
concrete payload whose single chemical entry has `toxicityLevel` 11. -/
theorem harmful_toxicityLevel_range_witness :
    HarmfulSchema.validate (.obj (harmfulFields 11)) = false :=
  harmful_toxicityLevel_range.1 (harmfulFields 11) [chemicalEntry 11]
    (chemicalEntryFields 11) 11 rfl (List.mem_singleton.mpr rfl) rfl
    (Or.inr (by norm_num))

/-- C4 (counterexample): a Poisonous-shaped payload whose
`toxicityLevel` is the string "definitely not a listed label", far
outside the declared literal set, is accepted by the Poisonous schema
validator (the field is a bare `z.string()` in the source). -/
theorem poisonous_accepts_unlisted_toxicity_label :
    PoisonousSchema.validate
      (poisonousExample (.str "definitely not a listed label") (.arr [vetEntry])) = true := by
  decide

/-- C4 (amended): the Poisonous schema validator checks
`toxicityLevel` only for being a string; every string value is
accepted (the enumeration of labels exists only as a source comment
and in prompt text, not in the validator). -/
theorem poisonous_toxicity_label_any_string (s : String) :
    PoisonousSchema.validate (poisonousExample (.str s) (.arr [vetEntry])) = true := rfl

/-- C5: the upload pipe of `POST /cat-safe/check-harmful` gates the
orchestration service: when the file fails either validator the
endpoint answers 422 and the response does not depend on the
orchestration collaborator at all (so zero invocations are
observable); when the file passes both, the response is exactly the
service result.  The example types `image/gif` and `image/bmp` fail
the type check and `5 MiB + 1` fails the size check. -/
theorem upload_validation_gates_orchestration :
    (∀ (α : Type) (runA runB : List AgentInputItem → RunResult α)
        (image : MulterFile) (body : RequestBody),
        (fileValid image = false →
          CatSafeController.checkHarmful runA image body = HttpResponse.unprocessableEntity
          ∧ CatSafeController.checkHarmful runA image body
              = CatSafeController.checkHarmful runB image body)
        ∧ (fileValid image = true →
          CatSafeController.checkHarmful runA image body =
            HttpResponse.ok
              (CatSafeService.checkThePlantIsHarmful runA image body.longitude body.latitude)))
    ∧ fileTypeOk "image/gif" = false
    ∧ fileTypeOk "image/bmp" = false
    ∧ fileSizeOk (5 * 1024 * 1024 + 1) = false := by
  refine ⟨?_, by decide, by decide, by decide⟩
  intro α runA runB image body
  constructor
  · intro h
    constructor
    · simp [CatSafeController.checkHarmful, h]
    · simp [CatSafeController.checkHarmful, h]
  · intro h
    simp [CatSafeController.checkHarmful, h]

/-- C5 (witness): a 4-byte GIF upload is answered with 422. -/
theorem upload_validation_gates_orchestration_witness :
    CatSafeController.checkHarmful (fun _ => RunResult.mk (0 : ℕ))
        { mimetype := "image/gif", size := 4, buffer := [71, 73, 70, 56] }
        { longitude := .num "1", latitude := .num "2" }
      = HttpResponse.unprocessableEntity :=
  ((upload_validation_gates_orchestration.1 ℕ
      (fun _ => RunResult.mk 0) (fun _ => RunResult.mk 1)
      { mimetype := "image/gif", size := 4, buffer := [71, 73, 70, 56] }
      { longitude := .num "1", latitude := .num "2" }).1 (by decide)).1

/-- C6 (counterexample): the claim "construction fails iff the key is
absent" is false on the code: with the key present but equal to the
empty string, `if (!openaiApiKey)` still throws, because the empty
string is JavaScript-falsy. -/
theorem construct_fails_on_present_empty_key :
    AgentService.construct (some "") =
      Except.error "OPENAI_API_KEY is required but not provided" := rfl

/-- C6 (amended): `AgentService` construction fails exactly when the
`OPENAI_API_KEY` configuration value is absent or is the empty string
(the JavaScript-falsy strings); for any non-empty key, construction
succeeds and installs that key. -/
theorem construct_fails_iff_key_falsy (c : Option String) :
    ((∃ e, AgentService.construct c = .error e) ↔ (c = none ∨ c = some ""))
    ∧ (∀ k : String, k ≠ "" → AgentService.construct (some k) = .ok { apiKey := k }) := by
  constructor
  · constructor
    · rintro ⟨e, he⟩
      match c with
      | none => exact Or.inl rfl
      | some k =>
        by_cases hk : k = ""
        · exact Or.inr (by rw [hk])
        · simp [AgentService.construct, hk] at he
    · rintro (rfl | rfl)
      · exact ⟨_, rfl⟩
      · exact ⟨_, rfl⟩
  · intro k hk
    simp [AgentService.construct, hk]

/-- C6 (witness): a concrete non-empty key yields a constructed
service carrying that key. -/
theorem construct_fails_iff_key_falsy_witness :
    AgentService.construct (some "sk-test") = Except.ok { apiKey := "sk-test" } :=
  (construct_fails_iff_key_falsy (some "sk-test")).2 "sk-test" (by decide)

/-- C7: for every pipeline, image string and coordinate pair, the
orchestration service builds exactly one user-role multimodal message
(text part stating the coordinates, image part holding the base64
data URL), invokes the pipeline on that singleton message list, and
returns the pipeline's `finalOutput` unchanged; the equation holds
for all coordinate values, so no geographic range check occurs. -/
theorem agent_builds_single_multimodal_message (α : Type)
    (run : List AgentInputItem → RunResult α)
    (base64Image : String) (longitude latitude : JsValue) :
    AgentService.checkThePlantIsHarmful run base64Image longitude latitude =
      (run
        [ { role := "user"
            content :=
              [ ContentPart.inputText
                  ("The plant is located at " ++ longitude.render ++ ", " ++ latitude.render),
                ContentPart.inputImage ("data:image/jpeg;base64," ++ base64Image) ] } ]).finalOutput := rfl

/-- C8: the service layer returns exactly the agent-service result on
the base64-encoded buffer, and on a valid upload the controller wraps
that very value in the 200 response, with no field added, removed or
modified at any layer. -/
theorem result_passes_through_unchanged (α : Type)
    (run : List AgentInputItem → RunResult α)
    (image : MulterFile) (body : RequestBody) :
    CatSafeService.checkThePlantIsHarmful run image body.longitude body.latitude =
      AgentService.checkThePlantIsHarmful run (base64Encode image.buffer)
        body.longitude body.latitude
    ∧ (fileValid image = true →
        CatSafeController.checkHarmful run image body =
          HttpResponse.ok
            (AgentService.checkThePlantIsHarmful run (base64Encode image.buffer)
              body.longitude body.latitude)) := by
  refine ⟨rfl, ?_⟩
  intro h
  simp [CatSafeController.checkHarmful, h, CatSafeService.checkThePlantIsHarmful]

/-- C8 (witness): concrete pass-through on a 3-byte PNG upload. -/
theorem result_passes_through_unchanged_witness :
    CatSafeController.checkHarmful (fun _ => RunResult.mk (0 : ℕ))
        { mimetype := "image/png", size := 3, buffer := [1, 2, 3] }
        { longitude := .num "1", latitude := .num "2" }
      = HttpResponse.ok
          (AgentService.checkThePlantIsHarmful (fun _ => RunResult.mk (0 : ℕ))
            (base64Encode [1, 2, 3]) (.num "1") (.num "2")) :=
  (result_passes_through_unchanged ℕ (fun _ => RunResult.mk 0)
    { mimetype := "image/png", size := 3, buffer := [1, 2, 3] }
    { longitude := .num "1", latitude := .num "2" }).2 (by decide)

/-- C9: a PNG upload passes the boundary (its type string matches the
validator pattern), yet the message sent to the pipeline carries a
data URL with the hard-coded prefix "data:image/jpeg;base64," — the
declared MIME type is jpeg regardless of the uploaded format. -/
theorem data_url_mime_always_jpeg (α : Type)
    (run : List AgentInputItem → RunResult α)
    (image : MulterFile) (body : RequestBody)
    (hm : image.mimetype = "image/png") (hs : image.size ≤ 5 * 1024 * 1024) :
    CatSafeController.checkHarmful run image body =
      HttpResponse.ok
        ((run
          [ { role := "user"
              content :=
                [ ContentPart.inputText
                    ("The plant is located at " ++ body.longitude.render ++ ", "
                      ++ body.latitude.render),
                  ContentPart.inputImage
                    ("data:image/jpeg;base64," ++ base64Encode image.buffer) ] } ]).finalOutput) := by
  have ht : fileTypeOk image.mimetype = true := by rw [hm]; decide
  have hsz : fileSizeOk image.size = true := by
    simp only [fileSizeOk, decide_eq_true_eq]
    exact hs
  have hv : fileValid image = true := by simp [fileValid, ht, hsz]
  simp [CatSafeController.checkHarmful, hv, CatSafeService.checkThePlantIsHarmful,
        AgentService.checkThePlantIsHarmful]

/-- C9 (witness): concrete PNG upload routed with a jpeg data URL. -/
theorem data_url_mime_always_jpeg_witness :
    CatSafeController.checkHarmful (fun _ => RunResult.mk (0 : ℕ))
        { mimetype := "image/png", size := 3, buffer := [137, 80, 78] }
        { longitude := .num "40.785091", latitude := .num "-73.968285" }
      = HttpResponse.ok
          (((fun _ : List AgentInputItem => RunResult.mk (0 : ℕ))
            [ { role := "user"
                content :=
                  [ ContentPart.inputText
                      ("The plant is located at " ++ (JsValue.num "40.785091").render ++ ", "
                        ++ (JsValue.num "-73.968285").render),
                    ContentPart.inputImage
                      ("data:image/jpeg;base64," ++ base64Encode [137, 80, 78]) ] } ]).finalOutput) :=
  data_url_mime_always_jpeg ℕ (fun _ => RunResult.mk 0)
    { mimetype := "image/png", size := 3, buffer := [137, 80, 78] }
    { longitude := .num "40.785091", latitude := .num "-73.968285" }
    rfl (by decide)

/-- C10: once the file passes the upload validators, the request
proceeds for arbitrary longitude/latitude body values — including
`undefined` — with no parsing or checking anywhere: the values are
stringified as-is into the text part of the message (JavaScript
renders a missing field as the text "undefined"), and the request is
never rejected on account of the coordinates. -/
theorem coordinates_flow_unchecked (α : Type)
    (run : List AgentInputItem → RunResult α)
    (image : MulterFile) (longitude latitude : JsValue)
    (hv : fileValid image = true) :
    CatSafeController.checkHarmful run image
        { longitude := longitude, latitude := latitude } =
      HttpResponse.ok
        ((run
          [ { role := "user"
              content :=
                [ ContentPart.inputText
                    ("The plant is located at " ++ longitude.render ++ ", " ++ latitude.render),
                  ContentPart.inputImage
                    ("data:image/jpeg;base64," ++ base64Encode image.buffer) ] } ]).finalOutput)
    ∧ JsValue.undef.render = "undefined" := by
  refine ⟨?_, rfl⟩
  simp [CatSafeController.checkHarmful, hv, CatSafeService.checkThePlantIsHarmful,
        AgentService.checkThePlantIsHarmful]

/-- C10 (witness): a valid JPEG upload with both coordinates missing
is still answered 200, the message text reading "The plant is located
at undefined, undefined". -/
theorem coordinates_flow_unchecked_witness :
    CatSafeController.checkHarmful (fun _ => RunResult.mk (0 : ℕ))
        { mimetype := "image/jpeg", size := 2, buffer := [255, 216] }
        { longitude := .undef, latitude := .undef }
      = HttpResponse.ok
          (((fun _ : List AgentInputItem => RunResult.mk (0 : ℕ))
            [ { role := "user"
                content :=
                  [ ContentPart.inputText "The plant is located at undefined, undefined",
                    ContentPart.inputImage
                      ("data:image/jpeg;base64," ++ base64Encode [255, 216]) ] } ]).finalOutput)
      ∧ JsValue.undef.render = "undefined" :=
  coordinates_flow_unchecked ℕ (fun _ => RunResult.mk 0)
    { mimetype := "image/jpeg", size := 2, buffer := [255, 216] }
    .undef .undef (by decide)

end CatSafe
